import Mathlib

/-!
Verification development for the iichid repository: a shallow embedding of
the HMAP usage-map engine interface (src/hmap.h), the pen driver
(src/hpen.c) and the I2C transport (src/iichid.c), together with theorems
settling the specification claims.  Parts of the repository that are not
present under src/ (the hmap.c resolver, hid.c's report-size helper, the
iichid.h default-sampling-rate constant) are modelled from the
specification; each such definition carries a doc comment starting with
"Modelled from the spec:".
-/

/- ===== External constants (evdev, errno, HID usage tables) ===== -/

def EV_KEY : Nat := 1
def EV_REL : Nat := 2
def EV_ABS : Nat := 3

def ABS_X : Nat := 0
def ABS_Y : Nat := 1
def ABS_PRESSURE : Nat := 24
def ABS_TILT_X : Nat := 26
def ABS_TILT_Y : Nat := 27

def BTN_TOOL_PEN : Nat := 320
def BTN_TOOL_RUBBER : Nat := 321
def BTN_TOUCH : Nat := 330
def BTN_STYLUS : Nat := 331
def BTN_STYLUS2 : Nat := 332

def INPUT_PROP_POINTER : Nat := 0
def INPUT_PROP_DIRECT : Nat := 5

/-- FreeBSD errno value of ENOSYS. -/
def ENOSYS : Int := 78

/-- HID usage pages (usbhid.h). -/
def HUP_GENERIC_DESKTOP : Nat := 1
def HUP_DIGITIZERS : Nat := 13

def HUG_X : Nat := 48
def HUG_Y : Nat := 49

def HUD_TIP_PRESSURE : Nat := 48
def HUD_IN_RANGE : Nat := 50
def HUD_TOUCH : Nat := 51
def HUD_BATTERY_STRENGTH : Nat := 59
def HUD_INVERT : Nat := 60
def HUD_X_TILT : Nat := 61
def HUD_Y_TILT : Nat := 62
def HUD_TIP_SWITCH : Nat := 66
def HUD_SEC_TIP_SWITCH : Nat := 67
def HUD_BARREL_SWITCH : Nat := 68
def HUD_ERASER : Nat := 69
def HUD_TABLET_PICK : Nat := 70
def HUD_SEC_BARREL_SWITCH : Nat := 90

/-- HID_USAGE2(page, id): combine a usage page and a usage id. -/
def HID_USAGE2 (page id : Nat) : Nat := page * 65536 + id

/-- Feature report type constant passed to hid_set_report (external header). -/
def HID_FEATURE_REPORT : Nat := 3

/- ===== HMAP data model (src/hmap.h) ===== -/

/-- Modelled from the spec: the lifecycle state a map-row callback observes
(design notes: an "attaching vs running" flag derivable from the current
item being null; section 4.4 additionally invokes completion rows in
attaching=false mode during detach).  The HMAP_CB_GET_STATE macro used by
src/hpen.c is not present in src/hmap.h. -/
inductive CbState where
  | attaching
  | running
  | detaching
deriving DecidableEq

/-- What one invocation of a map-row callback does: which evdev properties
it announces through evdev_support_prop, and its return value. -/
structure CbResult where
  props : List Nat
  ret : Int
deriving DecidableEq

abbrev HmapCb := CbState → CbResult

/-- enum hmap_relabs (src/hmap.h:42-46). -/
inductive HmapRelabs where
  | any
  | relative
  | absolute
deriving DecidableEq

/-- struct hmap_item (src/hmap.h:48-64).  The C union of (type, code) with
the callback pointer is modelled as separate fields discriminated by
has_cb.  Unset fields default to zero as in a C designated initializer. -/
structure HmapItem where
  name : String := ""
  usage : Nat := 0
  type : Nat := 0
  code : Nat := 0
  cb : HmapCb := fun _ => { props := [], ret := 0 }
  required : Bool := false
  relabs : HmapRelabs := HmapRelabs.any
  has_cb : Bool := false

/-- A parsed Variable input item produced by the descriptor parser:
a resolved usage plus the item's relative/absolute flag (spec section 3).
Array items are not needed by any claim and are omitted. -/
structure ParsedItem where
  usage : Nat
  relative : Bool
deriving DecidableEq

/-- HMAP_KEY row constructor (src/hmap.h:66-68). -/
def HMAP_KEY (n : String) (u c : Nat) : HmapItem :=
  { name := n, usage := u, type := EV_KEY, code := c, relabs := HmapRelabs.any }

/-- HMAP_REL row constructor (src/hmap.h:69-71). -/
def HMAP_REL (n : String) (u c : Nat) : HmapItem :=
  { name := n, usage := u, type := EV_REL, code := c, relabs := HmapRelabs.relative }

/-- HMAP_ABS row constructor (src/hmap.h:72-74). -/
def HMAP_ABS (n : String) (u c : Nat) : HmapItem :=
  { name := n, usage := u, type := EV_ABS, code := c, relabs := HmapRelabs.absolute }

/-- HMAP_ANY_CB row constructor (src/hmap.h:75-76). -/
def HMAP_ANY_CB (n : String) (u : Nat) (f : HmapCb) : HmapItem :=
  { name := n, usage := u, cb := f, has_cb := true }

/-- HMAP_ABS_CB row constructor (src/hmap.h:79-80). -/
def HMAP_ABS_CB (n : String) (u : Nat) (f : HmapCb) : HmapItem :=
  { HMAP_ANY_CB n u f with relabs := HmapRelabs.absolute }

/-- Modelled from the spec: the HMAP_COMPL_CB row constructor used by
src/hpen.c:102,118 is absent from src/hmap.h; the spec describes a
completion row as a sentinel with has_cb set and no usage (usage stays at
the zero default). -/
def HMAP_COMPL_CB (f : HmapCb) : HmapItem :=
  { cb := f, has_cb := true }

/-- A completion row: has_cb set and no usage (spec section 3). -/
def hmap_is_compl (r : HmapItem) : Bool :=
  r.has_cb && (r.usage == 0)

/-- Modelled from the spec: whether a row's relabs constraint admits a
parsed item's relative/absolute flag (spec 4.2 rule 1: HMAP_RELABS_ANY
admits both, HMAP_RELATIVE and HMAP_ABSOLUTE require exact match). -/
def hmap_relabs_admits : HmapRelabs → Bool → Bool
  | HmapRelabs.any, _ => true
  | HmapRelabs.relative, rel => rel
  | HmapRelabs.absolute, rel => !rel

/-- Modelled from the spec: matching of a Variable parsed item against a
map row (spec 4.2 rules 1, 3 and 4; the resolver lives in hmap.c, which is
not under src/).  A completion row matches no parsed item. -/
def hmap_matches (r : HmapItem) (it : ParsedItem) : Bool :=
  !(hmap_is_compl r) && (r.usage == it.usage) && hmap_relabs_admits r.relabs it.relative

/-- Modelled from the spec: a row is matched when some parsed item matches
it (spec 4.2: "Every row with required = true must have matched at least
one parsed item"). -/
def hmap_row_matched (items : List ParsedItem) (r : HmapItem) : Bool :=
  items.any (fun it => hmap_matches r it)

/-- Modelled from the spec: the first map row, in map order, that is
required but matched no parsed item. -/
def hmap_find_unbound_required (items : List ParsedItem) : List HmapItem → Option HmapItem
  | [] => none
  | r :: rest =>
      if r.required && !(hmap_row_matched items r) then some r
      else hmap_find_unbound_required items rest

/-- Attach failure taxonomy (spec section 7); only the resolver error is
needed by the claims. -/
inductive AttachError where
  | RequiredMapRowUnbound (n : String)
deriving DecidableEq

/-- The completion rows of a map, in map order. -/
def hmap_compl_rows (m : List HmapItem) : List HmapItem :=
  m.filter (fun r => hmap_is_compl r)

/-- Modelled from the spec: the completion-callback invocations performed
at the end of a successful attach (spec 4.4 step 7: invoke every
completion row once, with hi = NULL, recorded here as the none argument). -/
def hmap_compl_runs (m : List HmapItem) : List (Option Unit × CbResult) :=
  (hmap_compl_rows m).map (fun r => ((none : Option Unit), r.cb CbState.attaching))

/-- Modelled from the spec: the dispatch plan over Variable items (spec 4.2
rule 1: each parsed item binds to the first matching map row). -/
def hmap_plan (m : List HmapItem) (items : List ParsedItem) :
    List (ParsedItem × HmapItem) :=
  items.filterMap (fun it => Option.map (fun r => (it, r)) (m.find? (fun r => hmap_matches r it)))

/-- Result of a successful attach. -/
structure AttachOk where
  plan : List (ParsedItem × HmapItem)
  caps : List Bool
  complRuns : List (Option Unit × CbResult)
  props : List Nat

/-- Modelled from the spec: hmap attach over one map (hmap.c is not under
src/): resolve the map against the parsed items, abort with
RequiredMapRowUnbound naming the first unbound required row, otherwise
build the plan, the capability bits and run the completion callbacks once
each with hi = NULL. -/
def hmap_attach (m : List HmapItem) (items : List ParsedItem) :
    Except AttachError AttachOk :=
  match hmap_find_unbound_required items m with
  | some r => Except.error (AttachError.RequiredMapRowUnbound r.name)
  | none =>
      Except.ok
        { plan := hmap_plan m items
          caps := m.map (fun r => hmap_row_matched items r)
          complRuns := hmap_compl_runs m
          props := ((hmap_compl_runs m).map (fun p => p.2.props)).flatten }

/-- Modelled from the spec: the completion-callback invocations performed
at detach (spec 4.5 and section 7: a row whose attach-time invocation
returned ENOSYS is skipped at detach; any other return value is
equivalent to 0, so the row is invoked again, in attaching=false mode). -/
def hmap_detach_runs (m : List HmapItem) : List CbResult :=
  ((hmap_compl_rows m).filter
      (fun r => !((r.cb CbState.attaching).ret == ENOSYS))).map
    (fun r => r.cb CbState.detaching)

/- ===== Capability bitstring helpers (src/hmap.h:124-138) ===== -/

/-- FreeBSD bitstring(3) bit_count, modelled at its documented semantics
(external header sys/bitstring.h): count the set bits of the bitstring at
positions in the half-open range from start up to nbits. -/
def bit_count (caps : List Bool) (start nbits : Nat) : Nat :=
  (List.range nbits).countP (fun i => Nat.ble start i && caps.getD i false)

/-- hmap_count_caps (src/hmap.h:131-138): bit_count(caps, first, last + 1). -/
def hmap_count_caps (caps : List Bool) (first last : Nat) : Nat :=
  bit_count caps first (last + 1)

/- ===== C declaration shapes relevant to the callback return type ===== -/

/-- A C function return type, for comparing declarations. -/
inductive CRetType where
  | void
  | int
deriving DecidableEq

/-- The return type in the typedef of hmap_cb_t (src/hmap.h:40:
"typedef void hmap_cb_t(HMAP_CB_ARGS)"). -/
def hmap_cb_t_ret_type : CRetType := CRetType.void

/-- The return type of the definition of hpen_compl_pen_cb
(src/hpen.c:157-158: "static int hpen_compl_pen_cb(HMAP_CB_ARGS)"). -/
def hpen_compl_pen_cb_ret_type : CRetType := CRetType.int

/-- The return type of the definition of hpen_compl_digi_cb
(src/hpen.c:145-146). -/
def hpen_compl_digi_cb_ret_type : CRetType := CRetType.int

/- ===== The pen driver (src/hpen.c) ===== -/

/-- hpen_battery_strenght_cb (src/hpen.c:126-143): announces no evdev
property in any state (at attach it announces the EV_PWR event type, which
is a support_event call, not a property) and returns 0. -/
def hpen_battery_strenght_cb : HmapCb := fun _ =>
  { props := [], ret := 0 }

/-- hpen_compl_digi_cb (src/hpen.c:145-155): announce INPUT_PROP_POINTER
when attaching, nothing otherwise; always return ENOSYS. -/
def hpen_compl_digi_cb : HmapCb := fun s =>
  { props := if s = CbState.attaching then [INPUT_PROP_POINTER] else []
    ret := ENOSYS }

/-- hpen_compl_pen_cb (src/hpen.c:157-167): announce INPUT_PROP_DIRECT
when attaching, nothing otherwise; always return ENOSYS. -/
def hpen_compl_pen_cb : HmapCb := fun s =>
  { props := if s = CbState.attaching then [INPUT_PROP_DIRECT] else []
    ret := ENOSYS }

/-- The pen map's TIP_PRESSURE row (src/hpen.c:109).  Row names follow the
spec's naming (src/hmap.h's HMAP_* macros take a _name argument for which
src/hpen.c passes the usage page constant, a stale mismatch between the
two files; the spec and the claims name rows after their usages). -/
def hpen_map_pen_tip_pressure : HmapItem :=
  { HMAP_ABS ("TIP_PRESSURE") (HID_USAGE2 HUP_DIGITIZERS HUD_TIP_PRESSURE) ABS_PRESSURE with
      required := true }

/-- hpen_map_pen (src/hpen.c:106-119), the Microsoft-standardized pen map. -/
def hpen_map_pen : List HmapItem :=
  [ { HMAP_ABS ("X") (HID_USAGE2 HUP_GENERIC_DESKTOP HUG_X) ABS_X with required := true },
    { HMAP_ABS ("Y") (HID_USAGE2 HUP_GENERIC_DESKTOP HUG_Y) ABS_Y with required := true },
    hpen_map_pen_tip_pressure,
    HMAP_ABS ("X_TILT") (HID_USAGE2 HUP_DIGITIZERS HUD_X_TILT) ABS_TILT_X,
    HMAP_ABS ("Y_TILT") (HID_USAGE2 HUP_DIGITIZERS HUD_Y_TILT) ABS_TILT_Y,
    HMAP_ABS_CB ("BATTERY_STRENGTH") (HID_USAGE2 HUP_DIGITIZERS HUD_BATTERY_STRENGTH)
      hpen_battery_strenght_cb,
    { HMAP_KEY ("TIP_SWITCH") (HID_USAGE2 HUP_DIGITIZERS HUD_TIP_SWITCH) BTN_TOUCH with
        required := true },
    { HMAP_KEY ("IN_RANGE") (HID_USAGE2 HUP_DIGITIZERS HUD_IN_RANGE) BTN_TOOL_PEN with
        required := true },
    HMAP_KEY ("BARREL_SWITCH") (HID_USAGE2 HUP_DIGITIZERS HUD_BARREL_SWITCH) BTN_STYLUS,
    { HMAP_KEY ("INVERT") (HID_USAGE2 HUP_DIGITIZERS HUD_INVERT) BTN_TOOL_RUBBER with
        required := true },
    { HMAP_KEY ("ERASER") (HID_USAGE2 HUP_DIGITIZERS HUD_ERASER) BTN_TOUCH with
        required := true },
    HMAP_COMPL_CB hpen_compl_pen_cb ]

/-- hpen_map_digi (src/hpen.c:86-103), the generic digitizer-page map. -/
def hpen_map_digi : List HmapItem :=
  [ { HMAP_ABS ("X") (HID_USAGE2 HUP_GENERIC_DESKTOP HUG_X) ABS_X with required := true },
    { HMAP_ABS ("Y") (HID_USAGE2 HUP_GENERIC_DESKTOP HUG_Y) ABS_Y with required := true },
    HMAP_ABS ("TIP_PRESSURE") (HID_USAGE2 HUP_DIGITIZERS HUD_TIP_PRESSURE) ABS_PRESSURE,
    HMAP_ABS ("X_TILT") (HID_USAGE2 HUP_DIGITIZERS HUD_X_TILT) ABS_TILT_X,
    HMAP_ABS ("Y_TILT") (HID_USAGE2 HUP_DIGITIZERS HUD_Y_TILT) ABS_TILT_Y,
    HMAP_ABS_CB ("BATTERY_STRENGTH") (HID_USAGE2 HUP_DIGITIZERS HUD_BATTERY_STRENGTH)
      hpen_battery_strenght_cb,
    HMAP_KEY ("TOUCH") (HID_USAGE2 HUP_DIGITIZERS HUD_TOUCH) BTN_TOUCH,
    HMAP_KEY ("TIP_SWITCH") (HID_USAGE2 HUP_DIGITIZERS HUD_TIP_SWITCH) BTN_TOUCH,
    HMAP_KEY ("SEC_TIP_SWITCH") (HID_USAGE2 HUP_DIGITIZERS HUD_SEC_TIP_SWITCH) BTN_TOUCH,
    HMAP_KEY ("IN_RANGE") (HID_USAGE2 HUP_DIGITIZERS HUD_IN_RANGE) BTN_TOOL_PEN,
    HMAP_KEY ("BARREL_SWITCH") (HID_USAGE2 HUP_DIGITIZERS HUD_BARREL_SWITCH) BTN_STYLUS,
    HMAP_KEY ("INVERT") (HID_USAGE2 HUP_DIGITIZERS HUD_INVERT) BTN_TOOL_RUBBER,
    HMAP_KEY ("ERASER") (HID_USAGE2 HUP_DIGITIZERS HUD_ERASER) BTN_TOUCH,
    HMAP_KEY ("TABLET_PICK") (HID_USAGE2 HUP_DIGITIZERS HUD_TABLET_PICK) BTN_STYLUS2,
    HMAP_KEY ("SEC_BARREL_SWITCH") (HID_USAGE2 HUP_DIGITIZERS HUD_SEC_BARREL_SWITCH)
      BTN_STYLUS2,
    HMAP_COMPL_CB hpen_compl_digi_cb ]

/-- A pen report-descriptor item set that lacks TipPressure but carries
every other usage the pen map requires (all absolute Variable items). -/
def hpen_descr_no_pressure : List ParsedItem :=
  [ { usage := HID_USAGE2 HUP_GENERIC_DESKTOP HUG_X, relative := false },
    { usage := HID_USAGE2 HUP_GENERIC_DESKTOP HUG_Y, relative := false },
    { usage := HID_USAGE2 HUP_DIGITIZERS HUD_TIP_SWITCH, relative := false },
    { usage := HID_USAGE2 HUP_DIGITIZERS HUD_IN_RANGE, relative := false },
    { usage := HID_USAGE2 HUP_DIGITIZERS HUD_INVERT, relative := false },
    { usage := HID_USAGE2 HUP_DIGITIZERS HUD_ERASER, relative := false } ]

/-- The same descriptor with TipPressure present: every required pen row
is matched. -/
def hpen_descr_full : List ParsedItem :=
  { usage := HID_USAGE2 HUP_DIGITIZERS HUD_TIP_PRESSURE, relative := false } ::
    hpen_descr_no_pressure

/-- Events visible at the hpen_attach boundary (src/hpen.c:208-229). -/
inductive HpenEv where
  | set_report (data : List Nat) (rtype : Nat) (id : Nat)
  | log
  | attach_generic
deriving DecidableEq

/-- hpen_attach (src/hpen.c:208-229): when the HQ_GRAPHIRE3_4X5 quirk is
present, write the feature report {2, 2, 2} to report id 2
(reportbuf[0]); a set-report error is logged and ignored; finally run
hmap_attach and return its result.  The transport outcome of the write and
the result of the generic attach are parameters. -/
def hpen_attach (graphire3_quirk : Bool) (set_report_err : Int)
    (hmap_attach_res : Int) : List HpenEv × Int :=
  let pre :=
    if graphire3_quirk then
      HpenEv.set_report [2, 2, 2] HID_FEATURE_REPORT 2 ::
        (if set_report_err == 0 then [] else [HpenEv.log])
    else []
  (pre ++ [HpenEv.attach_generic], hmap_attach_res)

/- ===== The I2C transport (src/iichid.c) ===== -/

/-- Per-report-ID input-item extents: pairs of a report id and the highest
bit position after any parsed input item of that id. -/
abbrev ReportExtents := List (Nat × Nat)

/-- The maximum input-report size in bytes over all report IDs: highest
bit after any parsed input item, rounded up to bytes (the quantity named
by the claim and by spec 4.4 step 5). -/
def max_input_report_bytes (items : ReportExtents) : Nat :=
  (items.map (fun p => (p.2 + 7) / 8)).foldr Nat.max 0

/-- Modelled from the spec: hid_report_size of hid.c (not under src/),
per spec 4.1: the maximum input-report size in bytes across report IDs
plus 1 for the report-ID byte. -/
def hid_report_size (items : ReportExtents) : Nat :=
  max_input_report_bytes items + 1

/-- The interrupt input buffer size set by iichid_get_report_desc
(src/iichid.c:328): hid_report_size(...) + 2, the extra two bytes holding
the I2C-HID length prefix of each input report. -/
def iichid_input_size (items : ReportExtents) : Nat :=
  hid_report_size items + 2

/-- The leading 2-byte little-endian length field of an I2C-HID input
report: data[0] | data[1] << 8 (src/iichid.c:287). -/
def iichid_len_field (buf : List Nat) : Nat :=
  Nat.lor (buf.getD 0 0) (Nat.shiftLeft (buf.getD 1 0) 8)

/-- iichid_fetch_input_report (src/iichid.c:273-290): the transport
transfer either fails (none) or delivers the raw buffer; on success the
function reports the buffer and its leading length field. -/
def iichid_fetch_input_report (transfer : Option (List Nat)) :
    Option (List Nat × Nat) :=
  Option.map (fun buf => (buf, iichid_len_field buf)) transfer

/-- Outcome of one event-task run: the interrupt-handler invocation, if
any (buffer passed and its length), and whether the device was detached. -/
structure EventTaskOut where
  handler_call : Option (List Nat × Nat)
  detached : Bool
deriving DecidableEq

/-- iichid_event_task (src/iichid.c:415-441): fetch the input report; on
fetch error drop it; when the length field is at most 2 drop it; otherwise
invoke the registered handler with the buffer past the 2-byte prefix and
length equal to the length field minus 2.  No path detaches the device. -/
def iichid_event_task (transfer : Option (List Nat)) : EventTaskOut :=
  match iichid_fetch_input_report transfer with
  | none => { handler_call := none, detached := false }
  | some (buf, actual) =>
      if actual ≤ 2 then { handler_call := none, detached := false }
      else { handler_call := some (buf.drop 2, actual - 2), detached := false }

/-- The transport softc state tracked by the claims: which resources are
held (non-NULL pointers) and the sampling rate (src/iichid.c, struct
iichid fields). -/
structure IichidSc where
  input_buf : Bool
  callout_setup : Bool
  irq_cookie : Bool
  irq_res : Bool
  taskqueue : Bool
  sampling_rate : Int
deriving DecidableEq

/-- Resource-releasing actions performed by the transport. -/
inductive IichidAct where
  | free_input_buf
  | callout_stop
  | bus_teardown_intr
  | bus_release_resource
  | taskqueue_free
deriving DecidableEq

/-- iichid_teardown_callout (src/iichid.c:475-481): stop the callout and
clear callout_setup. -/
def iichid_teardown_callout (s : IichidSc) : IichidSc × List IichidAct :=
  ({ s with callout_setup := false }, [IichidAct.callout_stop])

/-- iichid_teardown_interrupt (src/iichid.c:499-506): tear the interrupt
down only when irq_cookie is set, then clear irq_cookie. -/
def iichid_teardown_interrupt (s : IichidSc) : IichidSc × List IichidAct :=
  ({ s with irq_cookie := false },
    if s.irq_cookie then [IichidAct.bus_teardown_intr] else [])

/-- iichid_destroy (src/iichid.c:660-690): free input_buf when non-NULL,
tear down the callout and the interrupt, release irq_res when non-NULL,
free the taskqueue when non-NULL.  The code never clears input_buf,
irq_res or taskqueue, so those fields keep their values in the resulting
state. -/
def iichid_destroy (s : IichidSc) : IichidSc × List IichidAct :=
  let a1 := if s.input_buf then [IichidAct.free_input_buf] else []
  let r2 := iichid_teardown_callout s
  let r3 := iichid_teardown_interrupt r2.1
  let a4 := if r3.1.irq_res then [IichidAct.bus_release_resource] else []
  let a5 := if r3.1.taskqueue then [IichidAct.taskqueue_free] else []
  (r3.1, a1 ++ r2.2 ++ r3.2 ++ a4 ++ a5)

/-- The softc in its normal post-attach shape: input buffer and taskqueue
allocated, IRQ resource held, interrupt set up. -/
def iichid_sc_attached : IichidSc :=
  { input_buf := true, callout_setup := false, irq_cookie := true,
    irq_res := true, taskqueue := true, sampling_rate := -1 }

/-- The polling-mode invariant of the claim: whenever no IRQ resource is
held, the sampling rate is non-negative. -/
def iichid_inv (s : IichidSc) : Bool :=
  s.irq_res || decide (0 ≤ s.sampling_rate)

/-- iichid_set_intr (src/iichid.c:553-618), state part: sampling_rate
starts at -1; when IRQ allocation fails fall back to the default sampling
rate d (IICHID_DEFAULT_SAMPLING_RATE lives in iichid.h, not under src/,
so the default is a parameter); when interrupt setup fails likewise fall
back to d; finally set up the callout when the rate is non-negative. -/
def iichid_set_intr (irq_alloc_ok setup_intr_ok : Bool) (d : Int) : IichidSc :=
  let rate1 : Int := if irq_alloc_ok then -1 else d
  let rate2 : Int :=
    if rate1 < 0 then (if setup_intr_ok then rate1 else d) else rate1
  let cookie := if rate1 < 0 then setup_intr_ok else false
  { input_buf := true, callout_setup := decide (0 ≤ rate2),
    irq_cookie := cookie, irq_res := irq_alloc_ok, taskqueue := true,
    sampling_rate := rate2 }

/-- iichid_sysctl_sampling_rate_handler (src/iichid.c:508-551): reject the
update when sysctl_handle_int failed, there is no new value, or the value
is unchanged; reject a negative value while no IRQ resource is held;
otherwise store the value and switch between interrupt and polling mode
(the success of bus_setup_intr is the parameter setup_intr_ok). -/
def iichid_sysctl_sampling_rate_handler (s : IichidSc) (err : Int)
    (newptr_null : Bool) (v : Int) (setup_intr_ok : Bool) : IichidSc × Int :=
  if err ≠ 0 ∨ newptr_null = true ∨ v = s.sampling_rate then (s, err)
  else if s.irq_res = false ∧ v < 0 then (s, err)
  else
    let s1 := { s with sampling_rate := v }
    let s2 :=
      if s.sampling_rate < 0 ∧ 0 ≤ v then
        { s1 with irq_cookie := false, callout_setup := true }
      else if 0 ≤ s.sampling_rate ∧ v < 0 then
        { s1 with callout_setup := false, irq_cookie := setup_intr_ok }
      else s1
    (s2, 0)

/-- A softc in polling mode (no IRQ resource, non-negative rate). -/
def iichid_sc_polling : IichidSc :=
  { input_buf := true, callout_setup := true, irq_cookie := false,
    irq_res := false, taskqueue := true, sampling_rate := 60 }

/- ===== Helper lemmas ===== -/

theorem list_countP_range_eq_card_filter (q : Nat → Bool) (n : Nat) :
    (List.range n).countP q = ((Finset.range n).filter (fun i => q i = true)).card := by
  induction n with
  | zero => simp
  | succ k ih =>
      rw [List.range_succ, List.countP_append, Finset.range_succ, Finset.filter_insert]
      by_cases hq : q k = true
      · rw [if_pos hq, Finset.card_insert_of_not_mem (by simp)]
        simp [List.countP_cons, hq, ih, Nat.add_comm]
      · rw [if_neg hq]
        simp [List.countP_cons, hq, ih]

theorem finset_filter_range_icc (caps : List Bool) (first last : Nat) :
    (Finset.range (last + 1)).filter
        (fun i => (Nat.ble first i && caps.getD i false) = true) =
      (Finset.Icc first last).filter (fun i => caps.getD i false = true) := by
  ext i
  simp [Finset.mem_filter, Finset.mem_range, Finset.mem_Icc, Nat.lt_succ_iff,
    Bool.and_eq_true, Nat.ble_eq]
  tauto

theorem list_countP_range_getD (caps : List Bool) (n : Nat) :
    (List.range n).countP (fun i => caps.getD i false) = (caps.take n).count true := by
  induction n with
  | zero => simp
  | succ k ih =>
      rw [List.range_succ, List.countP_append, List.take_succ, List.count_append]
      have h1 : List.countP (fun i => caps.getD i false) [k] =
          if caps.getD k false then 1 else 0 := by
        simp [List.countP_cons]
      have h2 : (caps[k]?.toList).count true = if caps.getD k false then 1 else 0 := by
        cases hk : caps[k]? with
        | none => simp [List.getD, hk]
        | some b => cases b <;> simp [List.getD, hk, List.count_cons]
      rw [h1, h2, ih]

theorem hmap_find_unbound_props (items : List ParsedItem) :
    ∀ (m : List HmapItem) (r : HmapItem),
      hmap_find_unbound_required items m = some r →
      r ∈ m ∧ r.required = true ∧ hmap_row_matched items r = false := by
  intro m
  induction m with
  | nil => intro r h; simp [hmap_find_unbound_required] at h
  | cons a t ih =>
      intro r h
      simp only [hmap_find_unbound_required] at h
      by_cases c : (a.required && !(hmap_row_matched items a)) = true
      · rw [if_pos c] at h
        injection h with h
        subst h
        simp only [Bool.and_eq_true, Bool.not_eq_true'] at c
        exact ⟨List.mem_cons_self a t, c.1, c.2⟩
      · rw [if_neg c] at h
        obtain ⟨h1, h2, h3⟩ := ih r h
        exact ⟨List.mem_cons_of_mem a h1, h2, h3⟩

theorem hmap_find_unbound_isSome (items : List ParsedItem) (r : HmapItem)
    (hreq : r.required = true) (hnm : hmap_row_matched items r = false) :
    ∀ m : List HmapItem, r ∈ m →
      (hmap_find_unbound_required items m).isSome = true := by
  intro m
  induction m with
  | nil => intro hm; cases hm
  | cons a t ih =>
      intro hm
      simp only [hmap_find_unbound_required]
      by_cases c : (a.required && !(hmap_row_matched items a)) = true
      · rw [if_pos c]; rfl
      · rw [if_neg c]
        cases hm with
        | head => exact absurd (by rw [hreq, hnm]; rfl) c
        | tail _ hmem => exact ih hmem

/- ===== Claim theorems ===== -/

/-- C1: every map row with required = true that matches no parsed
descriptor item makes attach fail with RequiredMapRowUnbound naming an
unmatched required row; in particular the Microsoft pen map attached
against a descriptor lacking TipPressure yields
RequiredMapRowUnbound("TIP_PRESSURE"). -/
theorem hmap_required_row_unbound_attach :
    (∀ (m : List HmapItem) (items : List ParsedItem) (r : HmapItem),
        r ∈ m → r.required = true → hmap_row_matched items r = false →
        ∃ r2, r2 ∈ m ∧ r2.required = true ∧ hmap_row_matched items r2 = false ∧
          hmap_attach m items =
            Except.error (AttachError.RequiredMapRowUnbound r2.name))
    ∧ hmap_attach hpen_map_pen hpen_descr_no_pressure =
        Except.error (AttachError.RequiredMapRowUnbound ("TIP_PRESSURE")) := by
  constructor
  · intro m items r hm hreq hnm
    have hs := hmap_find_unbound_isSome items r hreq hnm m hm
    obtain ⟨r2, hr2⟩ := Option.isSome_iff_exists.mp hs
    obtain ⟨h1, h2, h3⟩ := hmap_find_unbound_props items m r2 hr2
    exact ⟨r2, h1, h2, h3, by unfold hmap_attach; rw [hr2]⟩
  · rfl

theorem hmap_required_row_unbound_attach_witness :
    ∃ r2, r2 ∈ hpen_map_pen ∧ r2.required = true ∧
      hmap_row_matched hpen_descr_no_pressure r2 = false ∧
      hmap_attach hpen_map_pen hpen_descr_no_pressure =
        Except.error (AttachError.RequiredMapRowUnbound r2.name) :=
  hmap_required_row_unbound_attach.1 hpen_map_pen hpen_descr_no_pressure
    hpen_map_pen_tip_pressure
    (List.Mem.tail _ (List.Mem.tail _ (List.Mem.head _)))
    (by decide) (by decide)

/-- C2: on a successful attach every completion row's callback is invoked
exactly once, with hi = NULL (the none argument); in the attaching state
the pen map's completion callback announces exactly INPUT_PROP_DIRECT and
the generic digitizer map's announces exactly INPUT_PROP_POINTER, and
neither callback announces any property in any other state. -/
theorem hpen_completion_attach_props :
    (∀ (m : List HmapItem) (items : List ParsedItem),
        (hmap_find_unbound_required items m).isSome = false →
        ∃ ok, hmap_attach m items = Except.ok ok ∧
          ok.complRuns = (m.filter (fun r => hmap_is_compl r)).map
            (fun r => ((none : Option Unit), r.cb CbState.attaching)))
    ∧ (hpen_compl_pen_cb CbState.attaching).props = [INPUT_PROP_DIRECT]
    ∧ (hpen_compl_digi_cb CbState.attaching).props = [INPUT_PROP_POINTER]
    ∧ (∀ s, s ≠ CbState.attaching →
        (hpen_compl_pen_cb s).props = [] ∧ (hpen_compl_digi_cb s).props = []) := by
  refine ⟨?_, rfl, rfl, ?_⟩
  · intro m items h
    cases hfind : hmap_find_unbound_required items m with
    | some r => rw [hfind] at h; simp at h
    | none => exact ⟨_, by unfold hmap_attach; rw [hfind], rfl⟩
  · intro s hs
    cases s with
    | attaching => exact absurd rfl hs
    | running => exact ⟨rfl, rfl⟩
    | detaching => exact ⟨rfl, rfl⟩

theorem hpen_completion_attach_props_witness :
    (∃ ok, hmap_attach hpen_map_pen hpen_descr_full = Except.ok ok ∧
        ok.complRuns = (hpen_map_pen.filter (fun r => hmap_is_compl r)).map
          (fun r => ((none : Option Unit), r.cb CbState.attaching)))
    ∧ (hpen_compl_pen_cb CbState.running).props = [] :=
  ⟨hpen_completion_attach_props.1 hpen_map_pen hpen_descr_full (by decide),
   (hpen_completion_attach_props.2.2.2 CbState.running (by decide)).1⟩

/-- C3: the claim is right about the intended contract (src/hpen.c's
completion callbacks return int, return ENOSYS, and the comment documents
that this suppresses the detach- and interrupt-time invocations), but
src/hmap.h:40 declares hmap_cb_t as returning void, so under the header
actually present in src/ a callback cannot return a value at all: the two
files conflict.  This theorem records the return-type conflict, evaluates
the callbacks of src/hpen.c, and shows that under the spec-modelled engine
an ENOSYS completion row is skipped at detach and never enters the
dispatch plan. -/
theorem hpen_completion_return_type_conflict :
    decide (hmap_cb_t_ret_type = hpen_compl_pen_cb_ret_type) = false
    ∧ decide (hmap_cb_t_ret_type = hpen_compl_digi_cb_ret_type) = false
    ∧ (hpen_compl_pen_cb CbState.attaching).ret = ENOSYS
    ∧ (hpen_compl_digi_cb CbState.attaching).ret = ENOSYS
    ∧ hmap_detach_runs hpen_map_pen = []
    ∧ hmap_detach_runs hpen_map_digi = []
    ∧ (∀ it : ParsedItem, hmap_matches (HMAP_COMPL_CB hpen_compl_pen_cb) it = false) := by
  refine ⟨rfl, rfl, rfl, rfl, by decide, by decide, fun it => rfl⟩

/-- C4: the declarative row constructors produce rows with the stated
presets: KEY yields EV_KEY, REL yields EV_REL with relabs relative, ABS
yields EV_ABS with relabs absolute, ANY_CB yields a callback row (has_cb
set, cb = fn), COMPL_CB yields a completion row (has_cb set, no usage). -/
theorem hmap_row_constructor_presets :
    (∀ (n : String) (u c : Nat),
        (HMAP_KEY n u c).type = EV_KEY ∧ (HMAP_KEY n u c).code = c ∧
          (HMAP_KEY n u c).usage = u ∧ (HMAP_KEY n u c).relabs = HmapRelabs.any)
    ∧ (∀ (n : String) (u c : Nat),
        (HMAP_REL n u c).type = EV_REL ∧ (HMAP_REL n u c).relabs = HmapRelabs.relative ∧
          (HMAP_REL n u c).code = c ∧ (HMAP_REL n u c).usage = u)
    ∧ (∀ (n : String) (u c : Nat),
        (HMAP_ABS n u c).type = EV_ABS ∧ (HMAP_ABS n u c).relabs = HmapRelabs.absolute ∧
          (HMAP_ABS n u c).code = c ∧ (HMAP_ABS n u c).usage = u)
    ∧ (∀ (n : String) (u : Nat) (f : HmapCb),
        (HMAP_ANY_CB n u f).has_cb = true ∧ (HMAP_ANY_CB n u f).cb = f ∧
          (HMAP_ANY_CB n u f).usage = u)
    ∧ (∀ f : HmapCb,
        (HMAP_COMPL_CB f).has_cb = true ∧ (HMAP_COMPL_CB f).usage = 0 ∧
          (HMAP_COMPL_CB f).cb = f ∧ hmap_is_compl (HMAP_COMPL_CB f) = true) :=
  ⟨fun _ _ _ => ⟨rfl, rfl, rfl, rfl⟩, fun _ _ _ => ⟨rfl, rfl, rfl, rfl⟩,
   fun _ _ _ => ⟨rfl, rfl, rfl, rfl⟩, fun _ _ _ => ⟨rfl, rfl, rfl⟩,
   fun _ => ⟨rfl, rfl, rfl, rfl⟩⟩

/-- C5: with the Graphire3 quirk present, hpen_attach first writes the
3-byte feature report {2, 2, 2} to feature report id 2, logs a failing
write without aborting, and in every case returns exactly the result of
the generic hmap attach. -/
theorem hpen_attach_graphire3_quirk :
    ∀ (e a : Int),
      (hpen_attach true e a).1 =
        HpenEv.set_report [2, 2, 2] HID_FEATURE_REPORT 2 ::
          ((if e == 0 then [] else [HpenEv.log]) ++ [HpenEv.attach_generic])
      ∧ (hpen_attach true e a).2 = a
      ∧ (hpen_attach false e a).2 = a
      ∧ (hpen_attach false e a).1 = [HpenEv.attach_generic] :=
  fun _ _ => ⟨rfl, rfl, rfl, rfl⟩

/-- C6 counterexample: at a descriptor whose single input report ends at
bit 40 (5 bytes), the claimed buffer size (max bytes + 1) is 6, but the
driver allocates hid_report_size + 2 = 8 bytes (src/iichid.c:328). -/
theorem iichid_input_size_counterexample :
    decide (iichid_input_size [(1, 40)] =
      max_input_report_bytes [(1, 40)] + 1) = false := by decide

/-- C6 (amended): the interrupt input buffer size equals the maximum
input-report size in bytes over all report IDs plus 1 byte for the
report-ID byte plus 2 bytes for the I2C-HID length prefix. -/
theorem iichid_input_size_amended :
    ∀ items : ReportExtents,
      iichid_input_size items = max_input_report_bytes items + 1 + 2 :=
  fun _ => rfl

/-- C7: iichid_destroy is not idempotent: because the code never clears
input_buf, irq_res or taskqueue, a second call on the post-attach softc
frees the input buffer and the taskqueue and releases the IRQ resource a
second time (a double free), instead of being a no-op. -/
theorem iichid_destroy_second_call_frees_again :
    (iichid_destroy (iichid_destroy iichid_sc_attached).1).2 =
      [IichidAct.free_input_buf, IichidAct.callout_stop,
       IichidAct.bus_release_resource, IichidAct.taskqueue_free]
    ∧ (iichid_destroy iichid_sc_attached).2 =
      [IichidAct.free_input_buf, IichidAct.callout_stop,
       IichidAct.bus_teardown_intr, IichidAct.bus_release_resource,
       IichidAct.taskqueue_free] := by
  exact ⟨rfl, rfl⟩

/-- C8: hmap_count_caps(caps, first, last) counts the set bits of caps at
positions first through last inclusive; for first = 0 it is the number of
bound rows among the first last + 1 rows. -/
theorem hmap_count_caps_range (caps : List Bool) (first last : Nat)
    (h : first ≤ last) :
    hmap_count_caps caps first last =
      ((Finset.Icc first last).filter (fun i => caps.getD i false = true)).card
    ∧ (first = 0 →
        hmap_count_caps caps first last = (caps.take (last + 1)).count true) := by
  constructor
  · unfold hmap_count_caps bit_count
    rw [list_countP_range_eq_card_filter]
    congr 1
    exact finset_filter_range_icc caps first last
  · intro h0
    subst h0
    unfold hmap_count_caps bit_count
    have he : (fun i => Nat.ble 0 i && caps.getD i false) =
        (fun i => caps.getD i false) := by
      funext i; cases i <;> rfl
    rw [he, list_countP_range_getD]

theorem hmap_count_caps_range_witness :
    1 ≤ 2
    ∧ hmap_count_caps [true, false, true] 1 2 =
        ((Finset.Icc 1 2).filter
          (fun i => [true, false, true].getD i false = true)).card
    ∧ hmap_count_caps [true, false, true] 0 2 =
        ([true, false, true].take 3).count true :=
  ⟨by decide,
   (hmap_count_caps_range [true, false, true] 1 2 (by decide)).1,
   (hmap_count_caps_range [true, false, true] 0 2 (by decide)).2 rfl⟩

/-- C9: the interrupt handler is invoked on an event-task run exactly when
the input-report fetch succeeded and the report's leading 2-byte
little-endian length field exceeds 2; the handler then receives the buffer
past offset 2 together with the length field minus 2; otherwise the report
is dropped and the device is never detached. -/
theorem iichid_event_task_dispatch :
    ∀ transfer : Option (List Nat),
      ((iichid_event_task transfer).handler_call.isSome = true ↔
        ∃ buf, transfer = some buf ∧ 2 < iichid_len_field buf)
      ∧ (∀ buf, transfer = some buf → 2 < iichid_len_field buf →
          (iichid_event_task transfer).handler_call =
            some (buf.drop 2, iichid_len_field buf - 2))
      ∧ (iichid_event_task transfer).detached = false := by
  intro transfer
  cases transfer with
  | none =>
      refine ⟨?_, ?_, rfl⟩
      · simp [iichid_event_task, iichid_fetch_input_report]
      · intro buf h; cases h
  | some buf =>
      have hiff : (iichid_event_task (some buf)).handler_call.isSome = true ↔
          2 < iichid_len_field buf := by
        by_cases h : iichid_len_field buf ≤ 2 <;>
          simp [iichid_event_task, iichid_fetch_input_report, h] <;> omega
      refine ⟨?_, ?_, ?_⟩
      · rw [hiff]
        constructor
        · intro hlen; exact ⟨buf, rfl, hlen⟩
        · rintro ⟨b, hb, hlen⟩
          injection hb with hb
          subst hb
          exact hlen
      · intro b hb hlen
        injection hb with hb
        subst hb
        have h2 : ¬ iichid_len_field buf ≤ 2 := by omega
        simp [iichid_event_task, iichid_fetch_input_report, h2]
      · by_cases h : iichid_len_field buf ≤ 2 <;>
          simp [iichid_event_task, iichid_fetch_input_report, h]

theorem iichid_event_task_dispatch_witness :
    (iichid_event_task (some [5, 0, 9, 9, 9])).handler_call =
      some ([9, 9, 9], 3) :=
  (iichid_event_task_dispatch (some [5, 0, 9, 9, 9])).2.1 [5, 0, 9, 9, 9]
    rfl (by decide)

/-- C10: iichid_set_intr establishes the polling invariant (no IRQ
resource implies a non-negative sampling rate) for every non-negative
default rate, the sysctl handler preserves the invariant, and a sysctl
update that would set a negative rate while no IRQ resource is held leaves
the state unchanged. -/
theorem iichid_sampling_rate_invariant :
    (∀ (a b : Bool) (d : Int), 0 ≤ d → iichid_inv (iichid_set_intr a b d) = true)
    ∧ (∀ (s : IichidSc) (err : Int) (np : Bool) (v : Int) (ok : Bool),
        iichid_inv s = true →
        iichid_inv (iichid_sysctl_sampling_rate_handler s err np v ok).1 = true)
    ∧ (∀ (s : IichidSc) (err : Int) (np : Bool) (v : Int) (ok : Bool),
        s.irq_res = false → v < 0 →
        (iichid_sysctl_sampling_rate_handler s err np v ok).1 = s) := by
  refine ⟨?_, ?_, ?_⟩
  · intro a b d hd
    have hnd : ¬ d < 0 := not_lt.mpr hd
    cases a <;> cases b <;>
      simp [iichid_set_intr, iichid_inv, hnd, hd]
  · intro s err np v ok hinv
    unfold iichid_sysctl_sampling_rate_handler
    split
    · exact hinv
    · split
      · exact hinv
      · rename_i h1 h2
        split
        · rename_i h3
          simp [iichid_inv, h3.2]
        · split
          · rename_i h3 h4
            have hirq : s.irq_res = true := by
              cases hr : s.irq_res with
              | true => rfl
              | false => exact absurd ⟨hr, h4.2⟩ h2
            simp [iichid_inv, hirq]
          · rename_i h3 h4
            by_cases hv : v < 0
            · have hirq : s.irq_res = true := by
                cases hr : s.irq_res with
                | true => rfl
                | false => exact absurd ⟨hr, hv⟩ h2
              simp [iichid_inv, hirq]
            · simp [iichid_inv, not_lt.mp hv]
  · intro s err np v ok hres hv
    unfold iichid_sysctl_sampling_rate_handler
    split
    · rfl
    · split
      · rfl
      · rename_i h1 h2
        exact absurd ⟨hres, hv⟩ h2

theorem iichid_sampling_rate_invariant_witness :
    iichid_inv (iichid_set_intr false true 60) = true
    ∧ (iichid_sysctl_sampling_rate_handler iichid_sc_polling 0 false (-5) true).1 =
        iichid_sc_polling
    ∧ iichid_inv
        (iichid_sysctl_sampling_rate_handler iichid_sc_polling 0 false 30 true).1 = true :=
  ⟨iichid_sampling_rate_invariant.1 false true 60 (by decide),
   iichid_sampling_rate_invariant.2.2 iichid_sc_polling 0 false (-5) true rfl (by decide),
   iichid_sampling_rate_invariant.2.1 iichid_sc_polling 0 false 30 true (by decide)⟩
